import Mathlib

/-!
Shallow embedding of `ecommerce_data_processor.py`, the batch aggregation
pipeline of the E-commerce Analytics Dashboard repository.

Modelling conventions (all from the source, `src/ecommerce_data_processor.py`):

* Tables are lists of row structures; a table that failed to load is `none`.
* Timestamps are rationals counting days since an arbitrary epoch; an
  unparseable timestamp (pandas `NaT` after `pd.to_datetime(..., errors='coerce')`)
  is `none`.  The calendar date of a timestamp is its floor.  The code groups
  by the `strftime('%d/%m/%Y')` string of the timestamp; that zero-padded
  format is injective on calendar dates, so grouping by the formatted string
  is grouping by the calendar date, and we use the date itself as group key.
* Monetary amounts are rationals.  `Series.round(2)` is numpy's
  round-half-to-even at 2 decimal places, modelled exactly on rationals
  (binary floating-point representation error is abstracted away).
* Pandas float division can produce `inf`/`-inf`/`NaN`; where a computed
  column can hold such values we use the `PVal` type below.  `Series.fillna`
  replaces only `NaN`, never `inf` — this is modelled faithfully.
* `pd.cut(x, bins, labels).fillna(1)` buckets with left-open right-closed
  intervals and sends every value outside all bins to the fallback label 1;
  the three RFM score functions below transcribe the code's bins.
* Final cosmetic `sort_values` calls permute output rows only; every
  property below is stated about row membership or row counts, which are
  invariant under permutation, so the sorts are noted in comments rather
  than modelled.
-/

/-- Pandas float value: a finite rational, positive/negative infinity, or NaN.
Used for columns where the code's arithmetic can leave the finite range. -/
inductive PVal where
  | val : ℚ → PVal
  | inf : PVal
  | ninf : PVal
  | nan : PVal
deriving DecidableEq

/-- Pandas/numpy division of two finite values: `x/0` is `NaN` when `x = 0`,
`+inf` when `x > 0`, `-inf` when `x < 0` (numpy semantics, warnings ignored). -/
def pdivQ (a b : ℚ) : PVal :=
  if b = 0 then (if a = 0 then .nan else if 0 < a then .inf else .ninf)
  else .val (a / b)

/-- Multiplication of a pandas value by the finite constant 100. -/
def pmul100 : PVal → PVal
  | .val q => .val (q * 100)
  | .inf => .inf
  | .ninf => .ninf
  | .nan => .nan

/-- Model of `Series.fillna(0)`: replaces `NaN` only — infinities pass through. -/
def pfillna0 : PVal → PVal
  | .nan => .val 0
  | v => v

/-- Numpy round-half-to-even at 2 decimal places, exactly on rationals. -/
def round2 (q : ℚ) : ℚ :=
  if q * 100 - (⌊q * 100⌋ : ℚ) < 1 / 2 then (⌊q * 100⌋ : ℚ) / 100
  else if 1 / 2 < q * 100 - (⌊q * 100⌋ : ℚ) then ((⌊q * 100⌋ : ℚ) + 1) / 100
  else if ⌊q * 100⌋ % 2 = 0 then (⌊q * 100⌋ : ℚ) / 100
  else ((⌊q * 100⌋ : ℚ) + 1) / 100

/-- Model of `Series.round(2)` on a pandas value: rounds the finite case,
fixes `inf`/`NaN`. -/
def pround2 : PVal → PVal
  | .val q => .val (round2 q)
  | .inf => .inf
  | .ninf => .ninf
  | .nan => .nan

/-- Calendar date (day index) of a timestamp, i.e. the date that
`strftime('%d/%m/%Y')` renders; distinct dates render to distinct strings. -/
def dateOf (t : ℚ) : ℤ := ⌊t⌋

/-- Number of distinct values in a column, `Series.nunique`. -/
def countDistinct (l : List ℕ) : ℕ := l.dedup.length

-- ============================================================
-- RFM scoring (create_user_lifetime_metrics, lines 864-889)
-- ============================================================

/-- Recency score: `pd.cut(days, bins=[-1,30,90,180,365,inf], labels=[5,4,3,2,1]).fillna(1)`.
`none` models days_since_last_order being NaN (all order times unparseable). -/
def rfm_recency_score (d : Option ℤ) : ℕ :=
  match d with
  | none => 1
  | some d =>
    if -1 < d ∧ d ≤ 30 then 5
    else if 30 < d ∧ d ≤ 90 then 4
    else if 90 < d ∧ d ≤ 180 then 3
    else if 180 < d ∧ d ≤ 365 then 2
    else if 365 < d then 1
    else 1

/-- Frequency score: `pd.cut(total_orders, bins=[0,1,2,4,9,inf], labels=[1,2,3,4,5]).fillna(1)`. -/
def rfm_frequency_score (n : ℕ) : ℕ :=
  if 0 < n ∧ n ≤ 1 then 1
  else if 1 < n ∧ n ≤ 2 then 2
  else if 2 < n ∧ n ≤ 4 then 3
  else if 4 < n ∧ n ≤ 9 then 4
  else if 9 < n then 5
  else 1

/-- Monetary score: `pd.cut(total_revenue, bins=[0,50,200,500,1000,inf], labels=[1,2,3,4,5]).fillna(1)`.
The intervals are left-open right-closed, so revenue exactly 50 scores 1. -/
def rfm_monetary_score (q : ℚ) : ℕ :=
  if 0 < q ∧ q ≤ 50 then 1
  else if 50 < q ∧ q ≤ 200 then 2
  else if 200 < q ∧ q ≤ 500 then 3
  else if 500 < q ∧ q ≤ 1000 then 4
  else if 1000 < q then 5
  else 1

/-- Digit at position `i` of a string, `int(s[i])` in the source
(`'0'` padding for out-of-range positions never occurs on real inputs). -/
def digitAt (s : String) (i : ℕ) : ℕ := (s.data.getD i '0').toNat - 48

/-- The rfm_score string: concatenation of the three scores rendered as
decimal strings (`astype(str)` + string addition in the source, line 885). -/
def rfmConcat (r f m : ℕ) : String := toString r ++ toString f ++ toString m

/-- Transcription of `assign_segment` (lines 894-941): parses the three score
digits from the rfm_score string and runs the if/elif chain. -/
def assign_segment (rfm_score : String) : String :=
  let r := digitAt rfm_score 0
  let f := digitAt rfm_score 1
  let m := digitAt rfm_score 2
  if 4 ≤ r ∧ 4 ≤ f ∧ 4 ≤ m then "Champion"
  else if 3 ≤ r ∧ 4 ≤ f then "Loyal Customer"
  else if 3 ≤ r ∧ 2 ≤ f then "Potential Loyalist"
  else if r ≤ 2 ∧ 3 ≤ f then "At Risk"
  else if r = 1 ∧ f ≤ 2 then "Lost"
  else if r ≤ 2 ∧ f ≤ 2 then "Needs Attention"
  else if f ≤ 2 then "New Customer"
  else "Regular"

/-- First-match-wins evaluation of an ordered list of (condition, label)
rules with a default label. -/
def firstMatch : List (Bool × String) → String → String
  | [], dflt => dflt
  | (c, l) :: rest, dflt => if c then l else firstMatch rest dflt

/-- Modelled from the spec's words (claim C1): the segment decision table as
an ordered rule list evaluated top-to-bottom, first matching rule wins. -/
def segment_decision_table (r f m : ℕ) : String :=
  firstMatch [
    (decide (4 ≤ r ∧ 4 ≤ f ∧ 4 ≤ m), "Champion"),
    (decide (3 ≤ r ∧ 4 ≤ f), "Loyal Customer"),
    (decide (3 ≤ r ∧ 2 ≤ f), "Potential Loyalist"),
    (decide (r ≤ 2 ∧ 3 ≤ f), "At Risk"),
    (decide (r = 1 ∧ f ≤ 2), "Lost"),
    (decide (r ≤ 2 ∧ f ≤ 2), "Needs Attention"),
    (decide (f ≤ 2), "New Customer")
  ] "Regular"

/-- The eight segment labels `assign_segment` can produce. -/
def segmentLabels : List String :=
  ["Champion", "Loyal Customer", "Potential Loyalist", "At Risk",
   "Lost", "Needs Attention", "New Customer", "Regular"]

-- ============================================================
-- Evaluation helpers for floor and round2 on concrete rationals
-- (the kernel cannot reduce `Rat` arithmetic, so concrete values
-- are computed through these lemmas with norm_num)
-- ============================================================

/-- Evaluate a concrete floor from the two bracketing inequalities. -/
theorem floorEval {q : ℚ} {z : ℤ} (h1 : (z : ℚ) ≤ q) (h2 : q < z + 1) :
    ⌊q⌋ = z := Int.floor_eq_iff.mpr ⟨h1, h2⟩

/-- round2 rounds down when the fractional part of `100*q` is below 1/2. -/
theorem round2_eq_down {q : ℚ} {n : ℤ} (hfl : ⌊q * 100⌋ = n)
    (h : q * 100 - (n : ℚ) < 1 / 2) : round2 q = (n : ℚ) / 100 := by
  unfold round2
  rw [hfl, if_pos h]

/-- round2 rounds up when the fractional part of `100*q` is above 1/2. -/
theorem round2_eq_up {q : ℚ} {n : ℤ} (hfl : ⌊q * 100⌋ = n)
    (h : 1 / 2 < q * 100 - (n : ℚ)) : round2 q = ((n : ℚ) + 1) / 100 := by
  unfold round2
  rw [hfl, if_neg (by linarith), if_pos h]

/-- round2 at an exact half with even floor keeps the floor. -/
theorem round2_eq_half_even {q : ℚ} {n : ℤ} (hfl : ⌊q * 100⌋ = n)
    (h : q * 100 - (n : ℚ) = 1 / 2) (he : n % 2 = 0) :
    round2 q = (n : ℚ) / 100 := by
  unfold round2
  rw [hfl, if_neg (by rw [h]; norm_num), if_neg (by rw [h]; norm_num), if_pos he]

/-- round2 is the identity on values that are exact multiples of 1/100. -/
theorem round2_fixed {q : ℚ} {n : ℤ} (h : q * 100 = (n : ℚ)) : round2 q = q := by
  have hfl : ⌊q * 100⌋ = n := by rw [h]; exact Int.floor_intCast n
  rw [round2_eq_down hfl (by rw [h]; norm_num)]
  field_simp at h ⊢
  linarith

theorem round2_zero : round2 0 = 0 := round2_fixed (n := 0) (by norm_num)

/-- round2 of a nonnegative value is nonnegative. -/
theorem round2_nonneg {q : ℚ} (h : 0 ≤ q) : 0 ≤ round2 q := by
  have hf : (0 : ℚ) ≤ (⌊q * 100⌋ : ℚ) := by
    have : (0 : ℤ) ≤ ⌊q * 100⌋ := Int.floor_nonneg.mpr (by positivity)
    exact_mod_cast this
  unfold round2
  split_ifs <;> positivity

example : assign_segment "555" = "Champion" := by decide
example : assign_segment "111" = "Lost" := by decide
example : assign_segment "213" = "Needs Attention" := by decide
example : rfm_monetary_score 50 = 1 := by norm_num [rfm_monetary_score]
example : round2 (2001 / 200) = 10 := by
  rw [round2_eq_half_even (n := 1000) (floorEval (by norm_num) (by norm_num))
    (by norm_num) (by norm_num)]
  norm_num
example : round2 (100 / 3) = 3333 / 100 := by
  rw [round2_eq_down (n := 3333) (floorEval (by norm_num) (by norm_num))
    (by norm_num)]
  norm_num

-- ============================================================
-- Raw input rows (section 3 of the design: the 8 input tables)
-- ============================================================

/-- Row of `user_table.csv`. -/
structure UserRow where
  user_id : ℕ
  has_purchase_last_year : ℕ
  has_purchase_last_qtr : ℕ
deriving DecidableEq

/-- Row of `session_table.csv`.  UTM fields are nullable. -/
structure SessionRow where
  session_id : ℕ
  user_id : ℕ
  time : Option ℚ
  utm_source : Option String
  utm_medium : Option String
  utm_campaign : Option String
  country : String
  device_type : String
  platform : String
  landing_page : String
deriving DecidableEq

/-- Row of `order_table.csv`.  The `date` field models the derived date
column the aggregators write into the shared table in place
(`orders_df['date'] = ...`); it is absent (`none`) as loaded. -/
structure OrderRow where
  order_id : ℕ
  user_id : ℕ
  session_id : ℕ
  time : Option ℚ
  total_price : ℚ
  discount : ℚ
  discount_coupon_code : Option String
  total_items : ℕ
  total_qty : ℕ
  date : Option ℤ := none
deriving DecidableEq

/-- Row of `order_line_item_table.csv`. -/
structure ItemRow where
  event_id : ℕ
  order_id : ℕ
  product_name : String
  product_price : ℚ
  product_qty : ℕ
  time : Option ℚ
deriving DecidableEq

/-- Row of `add_to_cart_table.csv`. -/
structure CartRow where
  event_id : ℕ
  session_id : ℕ
  product_name : String
  product_price : ℚ
  product_qty : ℕ
  time : Option ℚ
deriving DecidableEq

/-- Row of `pageview_table.csv`. -/
structure PageviewRow where
  event_id : ℕ
  session_id : ℕ
  user_id : ℕ
  path : String
  time : Option ℚ
deriving DecidableEq

/-- Row of `scroll_table.csv`. -/
structure ScrollRow where
  event_id : ℕ
  session_id : ℕ
  path : String
  scroll_percent : ℚ
  time : Option ℚ
deriving DecidableEq

/-- Row of `click_table.csv`. -/
structure ClickRow where
  event_id : ℕ
  session_id : ℕ
  path : String
  target_text : String
  time : Option ℚ
deriving DecidableEq

/-- The loaded raw tables (`load_all_raw_data` result); `none` marks a table
whose file failed to load. -/
structure RawData where
  users : Option (List UserRow)
  sessions : Option (List SessionRow)
  orders : Option (List OrderRow)
  order_items : Option (List ItemRow)
  cart : Option (List CartRow)
  pageviews : Option (List PageviewRow)
  scrolls : Option (List ScrollRow)
  clicks : Option (List ClickRow)

-- ============================================================
-- Aggregator 1: create_daily_business_metrics (lines 255-375)
-- ============================================================

/-- Date key of an order (`orders_df['date']`); an unparseable timestamp has
no key and the row is dropped from every date group. -/
def orderDate (o : OrderRow) : Option ℤ := o.time.map dateOf

/-- Date key of a session (`sessions_df['date']`). -/
def sessionDate (s : SessionRow) : Option ℤ := s.time.map dateOf

/-- Orders grouped under date key `d`. -/
def ordersOn (orders : List OrderRow) (d : ℤ) : List OrderRow :=
  orders.filter (fun o => orderDate o == some d)

/-- Sessions grouped under date key `d`. -/
def sessionsOn (sessions : List SessionRow) (d : ℤ) : List SessionRow :=
  sessions.filter (fun s => sessionDate s == some d)

/-- `orders.groupby('date')['total_price'].sum()` at key `d`: present exactly
when some order has that date (pandas series alignment turns an absent index
entry into NaN, modelled as `none`). -/
def dm_total_revenue (orders : List OrderRow) (d : ℤ) : Option ℚ :=
  if (ordersOn orders d).isEmpty then none
  else some (((ordersOn orders d).map OrderRow.total_price).sum)

/-- `orders.groupby('date')['order_id'].nunique()` at key `d`. -/
def dm_total_orders (orders : List OrderRow) (d : ℤ) : Option ℕ :=
  if (ordersOn orders d).isEmpty then none
  else some (countDistinct ((ordersOn orders d).map OrderRow.order_id))

/-- `sessions.groupby('date')['session_id'].nunique()` at key `d`. -/
def dm_total_sessions (sessions : List SessionRow) (d : ℤ) : Option ℕ :=
  if (sessionsOn sessions d).isEmpty then none
  else some (countDistinct ((sessionsOn sessions d).map SessionRow.session_id))

/-- `sessions.groupby('date')['user_id'].nunique()` at key `d`. -/
def dm_total_users (sessions : List SessionRow) (d : ℤ) : Option ℕ :=
  if (sessionsOn sessions d).isEmpty then none
  else some (countDistinct ((sessionsOn sessions d).map SessionRow.user_id))

/-- Line 330 then 368: `(total_orders / total_sessions * 100).fillna(0)`,
rounded to 2 decimals at output.  Division of two aligned series is NaN as
soon as either side is absent, and `fillna(0)` maps that NaN to 0. -/
def dm_conversion_rate (orders : List OrderRow) (sessions : List SessionRow)
    (d : ℤ) : ℚ :=
  round2 (match dm_total_orders orders d, dm_total_sessions sessions d with
    | some o, some s => (o : ℚ) / (s : ℚ) * 100
    | _, _ => 0)

/-- Line 337 then 369: `(total_revenue / total_orders).fillna(0)` rounded. -/
def dm_avg_order_value (orders : List OrderRow) (d : ℤ) : ℚ :=
  round2 (match dm_total_revenue orders d, dm_total_orders orders d with
    | some r, some o => r / (o : ℚ)
    | _, _ => 0)

/-- Purchase-history flag of an order's user after the left merge with the
user table (lines 346-348); `none` models the NaN of an unmatched user. -/
def orderUserFlag (users : List UserRow) (o : OrderRow) : Option ℕ :=
  (users.find? (fun u => u.user_id == o.user_id)).map UserRow.has_purchase_last_year

/-- Lines 351-353: distinct purchasing users with flag 0, per date. -/
def dm_new_customers (users : List UserRow) (orders : List OrderRow)
    (d : ℤ) : Option ℕ :=
  if ((ordersOn orders d).filter (fun o => orderUserFlag users o == some 0)).isEmpty
  then none
  else some (countDistinct (((ordersOn orders d).filter
    (fun o => orderUserFlag users o == some 0)).map OrderRow.user_id))

/-- Lines 356-358: distinct purchasing users with flag 1, per date. -/
def dm_repeat_customers (users : List UserRow) (orders : List OrderRow)
    (d : ℤ) : Option ℕ :=
  if ((ordersOn orders d).filter (fun o => orderUserFlag users o == some 1)).isEmpty
  then none
  else some (countDistinct (((ordersOn orders d).filter
    (fun o => orderUserFlag users o == some 1)).map OrderRow.user_id))

/-- Output row of `daily_business_metrics.csv`.  A field is `none` when the
combined frame has NaN there (date absent from that metric's group index);
`new_customers`/`repeat_customers` are entirely absent (`none`) when the user
table or its flag column is unavailable. -/
structure DailyRow where
  date : ℤ
  total_revenue : Option ℚ
  total_orders : Option ℕ
  total_sessions : Option ℕ
  total_users : Option ℕ
  conversion_rate : ℚ
  avg_order_value : ℚ
  new_customers : Option ℕ
  repeat_customers : Option ℕ
deriving DecidableEq

/-- The union of the date keys of the metric series: the index of
`pd.DataFrame(metrics)` (new/repeat-customer dates are a subset of the order
dates, so they add nothing).  `pd.DataFrame` sorts this index; the sort only
permutes rows and is not modelled. -/
def dailyDates (orders : List OrderRow) (sessions : List SessionRow) : List ℤ :=
  (orders.filterMap orderDate ++ sessions.filterMap sessionDate).dedup

/-- One combined output row of daily_business_metrics for date `d`. -/
def mkDailyRow (orders : List OrderRow) (sessions : List SessionRow)
    (users_df : Option (List UserRow)) (d : ℤ) : DailyRow :=
  { date := d
    total_revenue := (dm_total_revenue orders d).map round2
    total_orders := dm_total_orders orders d
    total_sessions := dm_total_sessions sessions d
    total_users := dm_total_users sessions d
    conversion_rate := dm_conversion_rate orders sessions d
    avg_order_value := dm_avg_order_value orders d
    new_customers := match users_df with
      | none => none
      | some us => dm_new_customers us orders d
    repeat_customers := match users_df with
      | none => none
      | some us => dm_repeat_customers us orders d }

/-- Transcription of `create_daily_business_metrics` (lines 255-375).  The
model's schema always carries the `has_purchase_last_year` column, so the
column-presence check of line 342 reduces to the `users_df is not None` check. -/
def create_daily_business_metrics (orders_df : Option (List OrderRow))
    (sessions_df : Option (List SessionRow)) (users_df : Option (List UserRow)) :
    Option (List DailyRow) :=
  match orders_df, sessions_df with
  | some orders, some sessions =>
      some ((dailyDates orders sessions).map (mkDailyRow orders sessions users_df))
  | _, _ => none

-- ============================================================
-- Aggregator 2: create_session_attribution (lines 382-483)
-- ============================================================

/-- Output row of `session_attribution.csv`. -/
structure AttrRow where
  session_id : ℕ
  user_id : ℕ
  date : Option ℤ
  utm_source : Option String
  utm_medium : Option String
  utm_campaign : Option String
  country : String
  device_type : String
  platform : String
  converted : ℕ
  revenue : ℚ
  order_id : Option ℕ
deriving DecidableEq

/-- Joined output row for a session matched by order `o`: `converted = 1`
(order_id not null), `revenue = total_price` rounded at line 470, UTM fields
filled with `'direct'` when null (lines 474-476). -/
def attrMatchedRow (s : SessionRow) (o : OrderRow) : AttrRow :=
  { session_id := s.session_id
    user_id := s.user_id
    date := s.time.map dateOf
    utm_source := some (s.utm_source.getD "direct")
    utm_medium := some (s.utm_medium.getD "direct")
    utm_campaign := some (s.utm_campaign.getD "direct")
    country := s.country
    device_type := s.device_type
    platform := s.platform
    converted := 1
    revenue := round2 o.total_price
    order_id := some o.order_id }

/-- Output row for a session with no matching order: the left join leaves the
order columns NaN, so `converted = 0` and `revenue = fillna(0) = 0`. -/
def attrUnmatchedRow (s : SessionRow) : AttrRow :=
  { session_id := s.session_id
    user_id := s.user_id
    date := s.time.map dateOf
    utm_source := some (s.utm_source.getD "direct")
    utm_medium := some (s.utm_medium.getD "direct")
    utm_campaign := some (s.utm_campaign.getD "direct")
    country := s.country
    device_type := s.device_type
    platform := s.platform
    converted := 0
    revenue := round2 0
    order_id := none }

/-- Rows the left-outer join produces for one session: one per matching
order, or a single unmatched row when no order references the session. -/
def attrRowsFor (orders : List OrderRow) (s : SessionRow) : List AttrRow :=
  match orders.filter (fun o => o.session_id == s.session_id) with
  | [] => [attrUnmatchedRow s]
  | ms => ms.map (attrMatchedRow s)

/-- Transcription of `create_session_attribution` (lines 382-483).  When the
order table is `None` the code merges against a column-less empty frame,
which pandas rejects; `main` never reaches that case (it aborts first), and
it is modelled as an empty order list. -/
def create_session_attribution (sessions_df : Option (List SessionRow))
    (orders_df : Option (List OrderRow)) : Option (List AttrRow) :=
  match sessions_df with
  | none => none
  | some sessions => some (sessions.flatMap (attrRowsFor (orders_df.getD [])))

-- ============================================================
-- Aggregator 3: create_session_funnel (lines 490-636)
-- ============================================================

/-- Chars of `pat` head a list: helper for the substring test below. -/
def leadsChars : List Char → List Char → Bool
  | [], _ => true
  | _ :: _, [] => false
  | a :: as, b :: bs => a == b && leadsChars as bs

/-- `pat` occurs contiguously in a char list: model of Python `in`/pandas
`str.contains` for a plain (non-regex-special) pattern. -/
def hasSubChars (pat : List Char) : List Char → Bool
  | [] => pat.isEmpty
  | c :: rest => leadsChars pat (c :: rest) || hasSubChars pat rest

/-- `pageviews_df['path'].str.contains('/product/', na=False)` for one path. -/
def pathHasProduct (p : String) : Bool := hasSubChars "/product/".data p.data

/-- Output row of `session_funnel.csv`. -/
structure FunnelRow where
  session_id : ℕ
  user_id : ℕ
  date : Option ℤ
  had_pageview : ℕ
  had_product_view : ℕ
  had_add_to_cart : ℕ
  had_order : ℕ
  time_to_cart_minutes : Option ℚ
  time_to_order_minutes : Option ℚ
deriving DecidableEq

/-- Funnel record for one session: flags by membership tests against the
event tables, time deltas in minutes from session start to the earliest
cart add / order of the session (NaN, i.e. `none`, when the event never
occurred or a timestamp was unparseable). -/
def mkFunnelRow (pageviews_df : Option (List PageviewRow))
    (cart_df : Option (List CartRow)) (orders_df : Option (List OrderRow))
    (s : SessionRow) : FunnelRow :=
  { session_id := s.session_id
    user_id := s.user_id
    date := s.time.map dateOf
    had_pageview := 1
    had_product_view := match pageviews_df with
      | none => 0
      | some pvs =>
        if (pvs.filter (fun p => pathHasProduct p.path)).any
            (fun p => p.session_id == s.session_id) then 1 else 0
    had_add_to_cart := match cart_df with
      | none => 0
      | some cs => if cs.any (fun c => c.session_id == s.session_id) then 1 else 0
    had_order := match orders_df with
      | none => 0
      | some os => if os.any (fun o => o.session_id == s.session_id) then 1 else 0
    time_to_cart_minutes := match cart_df with
      | none => none
      | some cs =>
        match s.time,
          ((cs.filter (fun c => c.session_id == s.session_id)).filterMap
            CartRow.time).min? with
        | some t0, some t1 => some (round2 ((t1 - t0) * 1440))
        | _, _ => none
    time_to_order_minutes := match orders_df with
      | none => none
      | some os =>
        match s.time,
          ((os.filter (fun o => o.session_id == s.session_id)).filterMap
            OrderRow.time).min? with
        | some t0, some t1 => some (round2 ((t1 - t0) * 1440))
        | _, _ => none }

/-- Transcription of `create_session_funnel` (lines 490-636). -/
def create_session_funnel (sessions_df : Option (List SessionRow))
    (pageviews_df : Option (List PageviewRow)) (cart_df : Option (List CartRow))
    (orders_df : Option (List OrderRow)) : Option (List FunnelRow) :=
  sessions_df.map (fun ss => ss.map (mkFunnelRow pageviews_df cart_df orders_df))

-- ============================================================
-- Aggregator 4: create_product_performance_daily (lines 643-753)
-- ============================================================

/-- Group key `(date, product_name)` of a line item; rows with unparseable
time have no key and are dropped by the groupby. -/
def itemKey (i : ItemRow) : Option (ℤ × String) :=
  i.time.map (fun t => (dateOf t, i.product_name))

/-- Group key `(date, product_name)` of a cart-add event. -/
def cartKey (c : CartRow) : Option (ℤ × String) :=
  c.time.map (fun t => (dateOf t, c.product_name))

/-- Line items in the `(date, product)` group `k`. -/
def itemsWithKey (items : List ItemRow) (k : ℤ × String) : List ItemRow :=
  items.filter (fun i => itemKey i == some k)

/-- Output row of `product_performance_daily.csv`.  The cart-to-purchase
rate is a pandas float: `(times_purchased / times_added_to_cart * 100)`
`.fillna(0).round(2)` — note that a positive count divided by zero is
`inf`, which `fillna` does not replace. -/
structure ProdRow where
  date : ℤ
  product_name : String
  times_purchased : ℕ
  total_quantity_sold : ℕ
  total_revenue : ℚ
  times_added_to_cart : ℕ
  cart_to_purchase_rate : PVal
deriving DecidableEq

/-- Product-day metrics for group key `k` (purchase side always present:
keys are taken from the line items).  When the cart table is absent the
code sets `times_added_to_cart = 0` and rate `0` directly (lines 731-733). -/
def mkProdRow (items : List ItemRow) (cart_df : Option (List CartRow))
    (k : ℤ × String) : ProdRow :=
  { date := k.1
    product_name := k.2
    times_purchased := (itemsWithKey items k).length
    total_quantity_sold := ((itemsWithKey items k).map ItemRow.product_qty).sum
    total_revenue := round2 (((itemsWithKey items k).map
      (fun i => i.product_price * (i.product_qty : ℚ))).sum)
    times_added_to_cart := match cart_df with
      | none => 0
      | some cs => (cs.filter (fun c => cartKey c == some k)).length
    cart_to_purchase_rate := match cart_df with
      | none => .val 0
      | some cs => pround2 (pfillna0 (pmul100 (pdivQ
          ((itemsWithKey items k).length : ℚ)
          ((cs.filter (fun c => cartKey c == some k)).length : ℚ)))) }

/-- Transcription of `create_product_performance_daily` (lines 643-753).
`pageviews_df` is taken and unused, as in the source; the final sort by
`(date, total_revenue)` permutes rows only and is not modelled. -/
def create_product_performance_daily (order_items_df : Option (List ItemRow))
    (cart_df : Option (List CartRow)) (pageviews_df : Option (List PageviewRow)) :
    Option (List ProdRow) :=
  order_items_df.map
    (fun items => (items.filterMap itemKey).dedup.map (mkProdRow items cart_df))

-- ============================================================
-- Aggregator 5: create_user_lifetime_metrics (lines 760-966)
-- ============================================================

/-- Output row of `user_lifetime_metrics.csv`.  The first/last order dates
are emitted as formatted date strings; they are modelled by the calendar
date.  `days_since_last_order` is computed from the raw timestamp before
any date reformatting. -/
structure UserLifetimeRow where
  user_id : ℕ
  first_order_date : Option ℤ
  last_order_date : Option ℤ
  total_orders : ℕ
  total_revenue : ℚ
  avg_order_value : ℚ
  days_since_last_order : Option ℤ
  rfm_recency_score : ℕ
  rfm_frequency_score : ℕ
  rfm_monetary_score : ℕ
  rfm_score : String
  rfm_segment : String
  has_purchase_last_year : Option ℕ
  has_purchase_last_qtr : Option ℕ
deriving DecidableEq

/-- The orders of user `u` (groupby user_id group). -/
def userOrders (orders : List OrderRow) (u : ℕ) : List OrderRow :=
  orders.filter (fun o => o.user_id == u)

/-- Lifetime metrics row for one user with at least one order.  `today` is
the run date (`pd.Timestamp(datetime.now().date())`), passed explicitly.
Aggregation minima/maxima and the timedelta `.days` floor follow pandas:
NaT timestamps are skipped, and `(today - last).days` floors the day delta. -/
def mkLifetimeRow (users : List UserRow) (orders : List OrderRow) (today : ℤ)
    (u : ℕ) : UserLifetimeRow :=
  let g := userOrders orders u
  let times := g.filterMap OrderRow.time
  let revenue := round2 ((g.map OrderRow.total_price).sum)
  let nOrders := countDistinct (g.map OrderRow.order_id)
  let dsl : Option ℤ := times.max?.map (fun t => ⌊(today : ℚ) - t⌋)
  let r := rfm_recency_score dsl
  let f := rfm_frequency_score nOrders
  let m := rfm_monetary_score revenue
  { user_id := u
    first_order_date := times.min?.map dateOf
    last_order_date := times.max?.map dateOf
    total_orders := nOrders
    total_revenue := revenue
    avg_order_value := round2 ((g.map OrderRow.total_price).sum / (g.length : ℚ))
    days_since_last_order := dsl
    rfm_recency_score := r
    rfm_frequency_score := f
    rfm_monetary_score := m
    rfm_score := rfmConcat r f m
    rfm_segment := assign_segment (rfmConcat r f m)
    has_purchase_last_year :=
      (users.find? (fun x => x.user_id == u)).map UserRow.has_purchase_last_year
    has_purchase_last_qtr :=
      (users.find? (fun x => x.user_id == u)).map UserRow.has_purchase_last_qtr }

/-- Transcription of `create_user_lifetime_metrics` (lines 760-966).  The
model's user schema always carries the purchase-history columns, so the
column check of line 944 always merges; the final sort by total_revenue
descending permutes rows only and is not modelled. -/
def create_user_lifetime_metrics (users_df : Option (List UserRow))
    (orders_df : Option (List OrderRow)) (today : ℤ) :
    Option (List UserLifetimeRow) :=
  match users_df, orders_df with
  | some users, some orders =>
      some ((orders.map OrderRow.user_id).dedup.map (mkLifetimeRow users orders today))
  | _, _ => none

-- ============================================================
-- Aggregator 6: create_page_engagement_metrics (lines 973-1087)
-- ============================================================

/-- Group key `(date, path)` of a pageview. -/
def pvKey (p : PageviewRow) : Option (ℤ × String) :=
  p.time.map (fun t => (dateOf t, p.path))

/-- Group key `(date, path)` of a scroll event. -/
def scrollKey (s : ScrollRow) : Option (ℤ × String) :=
  s.time.map (fun t => (dateOf t, s.path))

/-- Group key `(date, path)` of a click event. -/
def clickKey (c : ClickRow) : Option (ℤ × String) :=
  c.time.map (fun t => (dateOf t, c.path))

/-- Output row of `page_engagement_metrics.csv`. -/
structure PageRow where
  date : ℤ
  path : String
  pageviews : ℕ
  unique_users : ℕ
  sessions_with_page : ℕ
  avg_scroll_depth : ℚ
  total_clicks : ℕ
deriving DecidableEq

/-- Page-day engagement row for group key `k`; scroll depth averages are
rounded then left-merged with missing combinations filled with 0. -/
def mkPageRow (pvs : List PageviewRow) (scrolls_df : Option (List ScrollRow))
    (clicks_df : Option (List ClickRow)) (k : ℤ × String) : PageRow :=
  { date := k.1
    path := k.2
    pageviews := (pvs.filter (fun p => pvKey p == some k)).length
    unique_users :=
      countDistinct ((pvs.filter (fun p => pvKey p == some k)).map PageviewRow.user_id)
    sessions_with_page :=
      countDistinct ((pvs.filter (fun p => pvKey p == some k)).map PageviewRow.session_id)
    avg_scroll_depth := match scrolls_df with
      | none => 0
      | some ss =>
        match ss.filter (fun x => scrollKey x == some k) with
        | [] => 0
        | l => round2 ((l.map ScrollRow.scroll_percent).sum / (l.length : ℚ))
    total_clicks := match clicks_df with
      | none => 0
      | some cs => (cs.filter (fun c => clickKey c == some k)).length }

/-- Transcription of `create_page_engagement_metrics` (lines 973-1087); the
final sort by `(date, pageviews)` permutes rows only and is not modelled. -/
def create_page_engagement_metrics (pageviews_df : Option (List PageviewRow))
    (scrolls_df : Option (List ScrollRow)) (clicks_df : Option (List ClickRow)) :
    Option (List PageRow) :=
  pageviews_df.map
    (fun pvs => (pvs.filterMap pvKey).dedup.map (mkPageRow pvs scrolls_df clicks_df))

-- ============================================================
-- Aggregator 7: create_coupon_performance (lines 1094-1188)
-- ============================================================

/-- The in-place mutation `create_coupon_performance` performs on each row
of the shared orders table (lines 1131 and 1135): writes the derived date
column and replaces a null `discount_coupon_code` with `'NO_COUPON'`. -/
def couponPrep (o : OrderRow) : OrderRow :=
  { o with date := o.time.map dateOf
           discount_coupon_code := some (o.discount_coupon_code.getD "NO_COUPON") }

/-- State of the shared orders table after `create_coupon_performance`
returns: every row has been rewritten in place by `couponPrep`. -/
def coupon_performance_after (orders : List OrderRow) : List OrderRow :=
  orders.map couponPrep

/-- Output row of `coupon_performance.csv`.  `discount_percentage` is
computed from the two already-rounded sums with no NaN/inf guard, so it is
a pandas float. -/
structure CouponRow where
  date : ℤ
  discount_coupon_code : String
  usage_count : ℕ
  total_discount_given : ℚ
  total_revenue : ℚ
  avg_order_value : ℚ
  discount_percentage : PVal
deriving DecidableEq

/-- Group key `(date, discount_coupon_code)` of a prepared order row; rows
whose date is NaN are dropped by the groupby. -/
def couponKey (o : OrderRow) : Option (ℤ × String) :=
  match o.date, o.discount_coupon_code with
  | some d, some c => some (d, c)
  | _, _ => none

/-- Coupon-day metrics for group key `k` over the prepared orders. -/
def mkCouponRow (orders2 : List OrderRow) (k : ℤ × String) : CouponRow :=
  { date := k.1
    discount_coupon_code := k.2
    usage_count := (orders2.filter (fun o => couponKey o == some k)).length
    total_discount_given :=
      round2 (((orders2.filter (fun o => couponKey o == some k)).map
        OrderRow.discount).sum)
    total_revenue :=
      round2 (((orders2.filter (fun o => couponKey o == some k)).map
        OrderRow.total_price).sum)
    avg_order_value :=
      round2 (((orders2.filter (fun o => couponKey o == some k)).map
        OrderRow.total_price).sum /
        ((orders2.filter (fun o => couponKey o == some k)).length : ℚ))
    discount_percentage :=
      pround2 (pmul100 (pdivQ
        (round2 (((orders2.filter (fun o => couponKey o == some k)).map
          OrderRow.discount).sum))
        (round2 (((orders2.filter (fun o => couponKey o == some k)).map
          OrderRow.total_price).sum)))) }

/-- Transcription of `create_coupon_performance` (lines 1094-1188).  The
model's order schema always carries the coupon column, so the column check
of line 1126 reduces to the `None` check; the final sort by
`(date, usage_count)` permutes rows only and is not modelled. -/
def create_coupon_performance (orders_df : Option (List OrderRow)) :
    Option (List CouponRow) :=
  orders_df.map (fun os =>
    ((coupon_performance_after os).filterMap couponKey).dedup.map
      (mkCouponRow (coupon_performance_after os)))

-- ============================================================
-- main (lines 1195-1328)
-- ============================================================

/-- Model of `save_to_csv` (lines 1195-1212): a `None` or empty table is
skipped; otherwise the named file is written.  Returns the files written. -/
def savedName {α : Type} (filename : String) (df : Option (List α)) : List String :=
  match df with
  | none => []
  | some rows => if rows.isEmpty then [] else [filename]

/-- Transcription of `main` (lines 1215-1328): with the loaded tables given
as `data`, abort writing nothing when sessions or orders failed to load
(lines 1252-1255), otherwise build the seven aggregate tables and save each.
Returns the list of output files written.  (The source function is named
`main`; Lean reserves that name for executables, hence the prefix.) -/
def pipeline_main (today : ℤ) (data : RawData) : List String :=
  match data.sessions, data.orders with
  | some _, some _ =>
      savedName "daily_business_metrics.csv"
        (create_daily_business_metrics data.orders data.sessions data.users)
      ++ savedName "session_attribution.csv"
        (create_session_attribution data.sessions data.orders)
      ++ savedName "session_funnel.csv"
        (create_session_funnel data.sessions data.pageviews data.cart data.orders)
      ++ savedName "product_performance_daily.csv"
        (create_product_performance_daily data.order_items data.cart data.pageviews)
      ++ savedName "user_lifetime_metrics.csv"
        (create_user_lifetime_metrics data.users data.orders today)
      ++ savedName "page_engagement_metrics.csv"
        (create_page_engagement_metrics data.pageviews data.scrolls data.clicks)
      ++ savedName "coupon_performance.csv"
        (create_coupon_performance data.orders)
  | _, _ => []

-- ============================================================
-- Helper lemmas about the RFM score functions and segments
-- ============================================================

/-- The recency score always lands in 1..5. -/
theorem rfm_recency_score_range (d : Option ℤ) :
    1 ≤ rfm_recency_score d ∧ rfm_recency_score d ≤ 5 := by
  cases d
  · simp [rfm_recency_score]
  · simp only [rfm_recency_score]
    split_ifs <;> omega

/-- The frequency score always lands in 1..5. -/
theorem rfm_frequency_score_range (n : ℕ) :
    1 ≤ rfm_frequency_score n ∧ rfm_frequency_score n ≤ 5 := by
  unfold rfm_frequency_score
  split_ifs <;> omega

/-- The monetary score always lands in 1..5. -/
theorem rfm_monetary_score_range (q : ℚ) :
    1 ≤ rfm_monetary_score q ∧ rfm_monetary_score q ≤ 5 := by
  unfold rfm_monetary_score
  split_ifs <;> omega

/-- assign_segment can only return one of the eight labels, whatever the
input string holds. -/
theorem assign_segment_mem_labels (s : String) :
    assign_segment s ∈ segmentLabels := by
  dsimp only [assign_segment, segmentLabels]
  split_ifs <;> simp

/-- A score in 1..5 renders as a single decimal digit. -/
theorem toString_score_digit {n : ℕ} (h1 : 1 ≤ n) (h2 : n ≤ 5) :
    (toString n).length = 1 ∧ (toString n).data.all Char.isDigit = true := by
  interval_cases n <;> decide

/-- Every output row of user-lifetime metrics is built by `mkLifetimeRow`. -/
theorem lifetime_mem {users : List UserRow} {orders : List OrderRow}
    {today : ℤ} {row : UserLifetimeRow}
    (h : row ∈ (create_user_lifetime_metrics (some users) (some orders) today).getD []) :
    ∃ u, row = mkLifetimeRow users orders today u := by
  simp only [create_user_lifetime_metrics, Option.getD_some, List.mem_map] at h
  obtain ⟨u, _, rfl⟩ := h
  exact ⟨u, rfl⟩

-- ============================================================
-- Claim C1
-- ============================================================

/-- C1: RFM segment classification is a pure function of the
(recency, frequency, monetary) score triple, equal to the spec's ordered
decision table evaluated with first-match-wins semantics, and in particular
(5,5,5) gives Champion, (1,1,1) gives Lost, (2,1,3) gives Needs Attention. -/
theorem c1_segment_table_equiv :
    (∀ r < 6, ∀ f < 6, ∀ m < 6,
      assign_segment (rfmConcat r f m) = segment_decision_table r f m) ∧
    assign_segment (rfmConcat 5 5 5) = "Champion" ∧
    assign_segment (rfmConcat 1 1 1) = "Lost" ∧
    assign_segment (rfmConcat 2 1 3) = "Needs Attention" := by
  decide

/-- C1 witness: the decision-table equivalence instantiated at the concrete
triple (5,5,5). -/
theorem c1_witness :
    assign_segment (rfmConcat 5 5 5) = segment_decision_table 5 5 5 :=
  c1_segment_table_equiv.1 5 (by omega) 5 (by omega) 5 (by omega)

/-- Concatenating three single-digit scores yields a 3-character digit string. -/
theorem rfmConcat_len_digits {r f m : ℕ} (hr1 : 1 ≤ r) (hr2 : r ≤ 5)
    (hf1 : 1 ≤ f) (hf2 : f ≤ 5) (hm1 : 1 ≤ m) (hm2 : m ≤ 5) :
    (rfmConcat r f m).length = 3 ∧ (rfmConcat r f m).data.all Char.isDigit = true := by
  have Hr := toString_score_digit hr1 hr2
  have Hf := toString_score_digit hf1 hf2
  have Hm := toString_score_digit hm1 hm2
  constructor
  · simp [rfmConcat, String.length_append, Hr.1, Hf.1, Hm.1]
  · simp only [rfmConcat, String.data_append, List.all_append]
    rw [Hr.2, Hf.2, Hm.2]
    rfl

-- ============================================================
-- Claim C10
-- ============================================================

/-- C10: every user-lifetime output row has all three RFM scores in 1..5,
a 3-character digit rfm_score string, and a segment among the eight defined
labels; inputs outside every bucket (nonpositive revenue, zero orders,
negative days-since-last-order) fall back to score 1. -/
theorem c10_rfm_scores_invariant (users : List UserRow) (orders : List OrderRow)
    (today : ℤ) :
    (∀ row ∈ (create_user_lifetime_metrics (some users) (some orders) today).getD [],
      (1 ≤ row.rfm_recency_score ∧ row.rfm_recency_score ≤ 5) ∧
      (1 ≤ row.rfm_frequency_score ∧ row.rfm_frequency_score ≤ 5) ∧
      (1 ≤ row.rfm_monetary_score ∧ row.rfm_monetary_score ≤ 5) ∧
      row.rfm_score.length = 3 ∧ row.rfm_score.data.all Char.isDigit = true ∧
      row.rfm_segment ∈ segmentLabels) ∧
    (∀ q : ℚ, q ≤ 0 → rfm_monetary_score q = 1) ∧
    rfm_frequency_score 0 = 1 ∧
    (∀ d : ℤ, d < 0 → rfm_recency_score (some d) = 1) := by
  refine ⟨?_, ?_, ?_, ?_⟩
  · intro row hrow
    obtain ⟨u, rfl⟩ := lifetime_mem hrow
    dsimp only [mkLifetimeRow]
    have hr := rfm_recency_score_range
      (((userOrders orders u).filterMap OrderRow.time).max?.map
        (fun t => ⌊(today : ℚ) - t⌋))
    have hf := rfm_frequency_score_range
      (countDistinct ((userOrders orders u).map OrderRow.order_id))
    have hm := rfm_monetary_score_range
      (round2 (((userOrders orders u).map OrderRow.total_price).sum))
    have hcat := rfmConcat_len_digits hr.1 hr.2 hf.1 hf.2 hm.1 hm.2
    exact ⟨hr, hf, hm, hcat.1, hcat.2, assign_segment_mem_labels _⟩
  · intro q hq
    unfold rfm_monetary_score
    split_ifs with h1 h2 h3 h4 h5
    · rfl
    · exfalso; linarith [h2.1]
    · exfalso; linarith [h3.1]
    · exfalso; linarith [h4.1]
    · exfalso; linarith
    · rfl
  · rfl
  · intro d hd
    simp only [rfm_recency_score]
    split_ifs with h1 h2 h3 h4 h5 <;> omega

-- ============================================================
-- Claim C2 (amended form)
-- ============================================================

/-- C2 amended: every user-lifetime output row carries
`total_revenue = round2(sum of the user's total_price)` and a monetary
score obtained by bucketing that value with left-open right-closed
boundaries — at most 50 (including the nonpositive fallback) scores 1,
(50, 200] scores 2, (200, 500] scores 3, (500, 1000] scores 4, and above
1000 scores 5. -/
theorem c2_monetary_bucket_amended (users : List UserRow)
    (orders : List OrderRow) (today : ℤ) :
    (∀ row ∈ (create_user_lifetime_metrics (some users) (some orders) today).getD [],
      row.total_revenue =
        round2 (((userOrders orders row.user_id).map OrderRow.total_price).sum) ∧
      row.rfm_monetary_score = rfm_monetary_score row.total_revenue) ∧
    (∀ q : ℚ,
      (q ≤ 50 → rfm_monetary_score q = 1) ∧
      (50 < q → q ≤ 200 → rfm_monetary_score q = 2) ∧
      (200 < q → q ≤ 500 → rfm_monetary_score q = 3) ∧
      (500 < q → q ≤ 1000 → rfm_monetary_score q = 4) ∧
      (1000 < q → rfm_monetary_score q = 5)) := by
  constructor
  · intro row hrow
    obtain ⟨u, rfl⟩ := lifetime_mem hrow
    exact ⟨rfl, rfl⟩
  · intro q
    refine ⟨?_, ?_, ?_, ?_, ?_⟩ <;> unfold rfm_monetary_score
    · intro h
      split_ifs with h1 h2 h3 h4 h5
      · rfl
      · exfalso; linarith [h2.1]
      · exfalso; linarith [h3.1]
      · exfalso; linarith [h4.1]
      · exfalso; linarith
      · rfl
    · intro h h'
      split_ifs with h1 h2 h3 h4 h5
      · exfalso; linarith [h1.2]
      · rfl
      · exfalso; linarith [h3.1]
      · exfalso; linarith [h4.1]
      · exfalso; linarith
      · exfalso; exact h2 ⟨h, h'⟩
    · intro h h'
      split_ifs with h1 h2 h3 h4 h5
      · exfalso; linarith [h1.2]
      · exfalso; linarith [h2.2]
      · rfl
      · exfalso; linarith [h4.1]
      · exfalso; linarith
      · exfalso; exact h3 ⟨h, h'⟩
    · intro h h'
      split_ifs with h1 h2 h3 h4 h5
      · exfalso; linarith [h1.2]
      · exfalso; linarith [h2.2]
      · exfalso; linarith [h3.2]
      · rfl
      · exfalso; linarith
      · exfalso; exact h4 ⟨h, h'⟩
    · intro h
      split_ifs with h1 h2 h3 h4
      · exfalso; linarith [h1.2]
      · exfalso; linarith [h2.2]
      · exfalso; linarith [h3.2]
      · exfalso; linarith [h4.2]
      · rfl

-- ============================================================
-- Concrete example inputs for witnesses and counterexamples
-- ============================================================

/-- Example user record. -/
def exUser : UserRow :=
  { user_id := 1, has_purchase_last_year := 0, has_purchase_last_qtr := 0 }

/-- Example order: user 1, session 1, midnight of day 0, total_price 50. -/
def exOrder50 : OrderRow :=
  { order_id := 1, user_id := 1, session_id := 1, time := some 0,
    total_price := 50, discount := 0, discount_coupon_code := none,
    total_items := 1, total_qty := 1 }

/-- The user-lifetime row the pipeline computes from `exUser`/`exOrder50`
with run date 10: one order, revenue 50, 10 days since last order. -/
def exLifetimeRow : UserLifetimeRow :=
  { user_id := 1, first_order_date := some 0, last_order_date := some 0,
    total_orders := 1, total_revenue := 50, avg_order_value := 50,
    days_since_last_order := some 10,
    rfm_recency_score := 5, rfm_frequency_score := 1, rfm_monetary_score := 1,
    rfm_score := "511", rfm_segment := "New Customer",
    has_purchase_last_year := some 0, has_purchase_last_qtr := some 0 }

/-- Evaluation of the user-lifetime aggregator on the example input. -/
theorem exLifetime_eval :
    (create_user_lifetime_metrics (some [exUser]) (some [exOrder50]) 10).getD []
      = [exLifetimeRow] := by
  have hf10 : ⌊(10 : ℚ) - 0⌋ = 10 := by
    rw [sub_zero]; exact floorEval (by norm_num) (by norm_num)
  have h50 : round2 (50 : ℚ) = 50 := round2_fixed (n := 5000) (by norm_num)
  have hm50 : rfm_monetary_score 50 = 1 := by norm_num [rfm_monetary_score]
  have hcat : rfmConcat 5 1 1 = "511" := by decide
  have hseg : assign_segment "511" = "New Customer" := by decide
  simp [create_user_lifetime_metrics, mkLifetimeRow, userOrders, countDistinct,
    exUser, exOrder50, exLifetimeRow, List.min?, List.max?, dateOf,
    hf10, h50, hm50, hcat, hseg, rfm_recency_score, rfm_frequency_score]

-- ============================================================
-- Session attribution lemmas (claims C5 and C8)
-- ============================================================

/-- Every attribution output row arises from a session of the input. -/
theorem attr_mem {sessions : List SessionRow} {orders : List OrderRow}
    {row : AttrRow}
    (h : row ∈ (create_session_attribution (some sessions) (some orders)).getD []) :
    ∃ s ∈ sessions, row ∈ attrRowsFor orders s := by
  simpa [create_session_attribution] using h

/-- A row produced for session `s` is either the unmatched row (no order
references the session) or a matched row for an order that does. -/
theorem attrRowsFor_cases {orders : List OrderRow} {s : SessionRow} {row : AttrRow}
    (h : row ∈ attrRowsFor orders s) :
    (row = attrUnmatchedRow s ∧
      orders.filter (fun o => o.session_id == s.session_id) = []) ∨
    (∃ o ∈ orders, o.session_id = s.session_id ∧ row = attrMatchedRow s o) := by
  unfold attrRowsFor at h
  cases hfil : orders.filter (fun o => o.session_id == s.session_id) with
  | nil =>
    rw [hfil] at h
    simp at h
    exact Or.inl ⟨h, rfl⟩
  | cons a l =>
    rw [hfil] at h
    simp only [List.mem_map] at h
    obtain ⟨o, ho, rfl⟩ := h
    have ho' : o ∈ orders.filter (fun o => o.session_id == s.session_id) := by
      rw [hfil]; exact ho
    have := List.mem_filter.mp ho'
    exact Or.inr ⟨o, this.1, by simpa using this.2, rfl⟩

/-- Both join row shapes carry the session's id. -/
theorem attrRowsFor_session_id {orders : List OrderRow} {s : SessionRow}
    {row : AttrRow} (h : row ∈ attrRowsFor orders s) :
    row.session_id = s.session_id := by
  rcases attrRowsFor_cases h with ⟨rfl, _⟩ | ⟨o, _, _, rfl⟩ <;> rfl

/-- The join emits one row per matching order, or a single unmatched row. -/
theorem attrRowsFor_length (orders : List OrderRow) (s : SessionRow) :
    (attrRowsFor orders s).length =
      max 1 ((orders.filter (fun o => o.session_id == s.session_id)).length) := by
  unfold attrRowsFor
  cases hfil : orders.filter (fun o => o.session_id == s.session_id) with
  | nil => simp
  | cons a l => simp [Nat.max_eq_right, Nat.succ_le_succ]

/-- Count of attribution rows carrying a given session id, across the whole
left join: number of session rows with that id times the (at least one)
join multiplicity of that id in the order table. -/
theorem attr_count (orders : List OrderRow) (sessions : List SessionRow) (sid : ℕ) :
    ((sessions.flatMap (attrRowsFor orders)).filter
      (fun row => row.session_id == sid)).length =
    (sessions.filter (fun s => s.session_id == sid)).length *
      max 1 ((orders.filter (fun o => o.session_id == sid)).length) := by
  induction sessions with
  | nil => simp
  | cons s ss ih =>
    rw [List.flatMap_cons, List.filter_append, List.length_append, ih,
      List.filter_cons]
    by_cases h : s.session_id = sid
    · subst h
      have hall : (attrRowsFor orders s).filter
          (fun row => row.session_id == s.session_id) = attrRowsFor orders s :=
        List.filter_eq_self.mpr (fun row hrow => by
          simp [attrRowsFor_session_id hrow])
      rw [hall, attrRowsFor_length]
      simp
      ring
    · have hnone : (attrRowsFor orders s).filter
          (fun row => row.session_id == sid) = [] :=
        List.filter_eq_nil_iff.mpr (fun row hrow => by
          simp [attrRowsFor_session_id hrow, h])
      rw [hnone]
      simp [h]

-- ============================================================
-- Claim C5 (amended form)
-- ============================================================

/-- C5 amended: in the session-attribution output, `converted = 1` iff some
order references the row's session; converted rows carry the matched order's
total_price rounded to 2 decimals (the code rounds the revenue column) and
its order_id; unconverted rows carry revenue 0; every input session yields a
row, and a session id matched by k ≥ 1 orders yields k rows per session row. -/
theorem c5_attribution_amended (sessions : List SessionRow) (orders : List OrderRow) :
    (∀ row ∈ (create_session_attribution (some sessions) (some orders)).getD [],
      (row.converted = 1 ↔ ∃ o ∈ orders, o.session_id = row.session_id)) ∧
    (∀ row ∈ (create_session_attribution (some sessions) (some orders)).getD [],
      row.converted = 0 → row.revenue = 0) ∧
    (∀ row ∈ (create_session_attribution (some sessions) (some orders)).getD [],
      row.converted = 1 → ∃ o ∈ orders, o.session_id = row.session_id ∧
        row.revenue = round2 o.total_price ∧ row.order_id = some o.order_id) ∧
    (∀ s ∈ sessions,
      ∃ row ∈ (create_session_attribution (some sessions) (some orders)).getD [],
        row.session_id = s.session_id) ∧
    (∀ sid : ℕ,
      (((create_session_attribution (some sessions) (some orders)).getD []).filter
        (fun row => row.session_id == sid)).length =
      (sessions.filter (fun s => s.session_id == sid)).length *
        max 1 ((orders.filter (fun o => o.session_id == sid)).length)) := by
  refine ⟨?_, ?_, ?_, ?_, ?_⟩
  · intro row hrow
    obtain ⟨s, hs, hmem⟩ := attr_mem hrow
    rcases attrRowsFor_cases hmem with ⟨rfl, hfil⟩ | ⟨o, ho, hosid, rfl⟩
    · constructor
      · intro h
        exact absurd h (by simp [attrUnmatchedRow])
      · rintro ⟨o, ho, hosid⟩
        have := List.filter_eq_nil_iff.mp hfil o ho
        simp [attrUnmatchedRow] at hosid
        simp [hosid] at this
    · constructor
      · intro _
        exact ⟨o, ho, by simp [attrMatchedRow, hosid]⟩
      · intro _
        rfl
  · intro row hrow
    obtain ⟨s, hs, hmem⟩ := attr_mem hrow
    rcases attrRowsFor_cases hmem with ⟨rfl, hfil⟩ | ⟨o, ho, hosid, rfl⟩
    · intro _
      exact round2_zero
    · intro h
      exact absurd h (by simp [attrMatchedRow])
  · intro row hrow
    obtain ⟨s, hs, hmem⟩ := attr_mem hrow
    rcases attrRowsFor_cases hmem with ⟨rfl, hfil⟩ | ⟨o, ho, hosid, rfl⟩
    · intro h
      exact absurd h (by simp [attrUnmatchedRow])
    · intro _
      exact ⟨o, ho, by simp [attrMatchedRow, hosid], rfl, rfl⟩
  · intro s hs
    have hrow : ∃ row ∈ attrRowsFor orders s, row.session_id = s.session_id := by
      unfold attrRowsFor
      cases hfil : orders.filter (fun o => o.session_id == s.session_id) with
      | nil => exact ⟨attrUnmatchedRow s, by simp, rfl⟩
      | cons a l => exact ⟨attrMatchedRow s a, by simp, rfl⟩
    obtain ⟨row, hmem, hsid⟩ := hrow
    refine ⟨row, ?_, hsid⟩
    simp only [create_session_attribution, Option.getD_some, List.mem_flatMap]
    exact ⟨s, hs, hmem⟩
  · intro sid
    simp only [create_session_attribution, Option.getD_some]
    exact attr_count orders sessions sid

-- ============================================================
-- Claim C8
-- ============================================================

/-- C8: no UTM field of a session-attribution output row is null; each row
inherits its session's UTM values with nulls replaced by the literal
string "direct". -/
theorem c8_utm_never_null (sessions : List SessionRow) (orders : List OrderRow) :
    (∀ row ∈ (create_session_attribution (some sessions) (some orders)).getD [],
      row.utm_source.isSome = true ∧ row.utm_medium.isSome = true ∧
      row.utm_campaign.isSome = true) ∧
    (∀ row ∈ (create_session_attribution (some sessions) (some orders)).getD [],
      ∃ s ∈ sessions, row.session_id = s.session_id ∧
        row.utm_source = some (s.utm_source.getD "direct") ∧
        row.utm_medium = some (s.utm_medium.getD "direct") ∧
        row.utm_campaign = some (s.utm_campaign.getD "direct")) := by
  constructor
  · intro row hrow
    obtain ⟨s, hs, hmem⟩ := attr_mem hrow
    rcases attrRowsFor_cases hmem with ⟨rfl, _⟩ | ⟨o, _, _, rfl⟩ <;>
      simp [attrUnmatchedRow, attrMatchedRow]
  · intro row hrow
    obtain ⟨s, hs, hmem⟩ := attr_mem hrow
    rcases attrRowsFor_cases hmem with ⟨rfl, _⟩ | ⟨o, _, _, rfl⟩ <;>
      exact ⟨s, hs, rfl, rfl, rfl, rfl⟩

-- ============================================================
-- Concrete attribution example (counterexample and witnesses)
-- ============================================================

/-- Example session: all three UTM fields null (direct traffic). -/
def exSession : SessionRow :=
  { session_id := 1, user_id := 1, time := some 0, utm_source := none,
    utm_medium := none, utm_campaign := none, country := "US",
    device_type := "mobile", platform := "web", landing_page := "/" }

/-- Example order referencing session 1 with total_price 10.005
(= 2001/200), a value that is not an exact multiple of 1/100. -/
def exOrderOdd : OrderRow :=
  { order_id := 7, user_id := 1, session_id := 1, time := some 0,
    total_price := 2001 / 200, discount := 0, discount_coupon_code := none,
    total_items := 1, total_qty := 1 }

/-- The attribution row computed for `exSession` joined to `exOrderOdd`:
revenue is the rounded 10, not the order's 10.005. -/
def exAttrRow : AttrRow :=
  { session_id := 1, user_id := 1, date := some 0,
    utm_source := some "direct", utm_medium := some "direct",
    utm_campaign := some "direct", country := "US", device_type := "mobile",
    platform := "web", converted := 1, revenue := 10, order_id := some 7 }

/-- Evaluation of the session-attribution aggregator on the example pair. -/
theorem exAttr_eval :
    (create_session_attribution (some [exSession]) (some [exOrderOdd])).getD []
      = [exAttrRow] := by
  have hrev : round2 ((2001 : ℚ) / 200) = 10 := by
    rw [round2_eq_half_even (n := 1000) (floorEval (by norm_num) (by norm_num))
      (by norm_num) (by norm_num)]
    norm_num
  simp [create_session_attribution, attrRowsFor, attrMatchedRow, exSession,
    exOrderOdd, exAttrRow, dateOf, hrev]

/-- C5 counterexample: for a session converted by an order with total_price
10.005, the output revenue is the rounded 10 — not the matched order's
total_price as the claim states (the code rounds the revenue column to 2
decimals at line 470). -/
theorem c5_counterexample :
    ((create_session_attribution (some [exSession]) (some [exOrderOdd])).getD []).map
      (fun row => (row.converted, row.revenue)) = [(1, 10)] ∧
    exOrderOdd.total_price ≠ 10 := by
  constructor
  · rw [exAttr_eval]
    simp [exAttrRow]
  · simp only [exOrderOdd]
    norm_num

/-- C5 witness: the amended theorem instantiated at the concrete example
row, discharging the row-membership hypothesis. -/
theorem c5_witness :
    exAttrRow.converted = 1 ↔ ∃ o ∈ [exOrderOdd], o.session_id = exAttrRow.session_id :=
  (c5_attribution_amended [exSession] [exOrderOdd]).1 exAttrRow
    (by rw [exAttr_eval]; exact List.mem_singleton_self _)

/-- C8 witness: the UTM non-nullness instantiated at the concrete example
row whose input session had all three UTM fields null. -/
theorem c8_witness :
    exAttrRow.utm_source.isSome = true ∧ exAttrRow.utm_medium.isSome = true ∧
    exAttrRow.utm_campaign.isSome = true :=
  (c8_utm_never_null [exSession] [exOrderOdd]).1 exAttrRow
    (by rw [exAttr_eval]; exact List.mem_singleton_self _)

-- ============================================================
-- Daily business metrics lemmas (claims C6 and C7)
-- ============================================================

/-- Every daily-metrics output row is built by `mkDailyRow` from a date of
the union index. -/
theorem daily_mem {orders : List OrderRow} {sessions : List SessionRow}
    {users : Option (List UserRow)} {row : DailyRow}
    (h : row ∈ (create_daily_business_metrics (some orders) (some sessions) users).getD []) :
    ∃ d ∈ dailyDates orders sessions, row = mkDailyRow orders sessions users d := by
  simp only [create_daily_business_metrics, Option.getD_some, List.mem_map] at h
  obtain ⟨d, hd, rfl⟩ := h
  exact ⟨d, hd, rfl⟩

/-- A nonempty column has at least one distinct value. -/
theorem countDistinct_pos {l : List ℕ} (h : l ≠ []) : 0 < countDistinct l := by
  unfold countDistinct
  rw [List.length_pos]
  simpa [Ne, List.dedup_eq_nil] using h

/-- A present sessions-per-date count is positive: group indices only carry
dates that actually occur. -/
theorem dm_total_sessions_pos {sessions : List SessionRow} {d : ℤ} {s : ℕ}
    (h : dm_total_sessions sessions d = some s) : 0 < s := by
  unfold dm_total_sessions at h
  split at h
  · exact absurd h (by simp)
  · next hne =>
    obtain rfl : countDistinct ((sessionsOn sessions d).map SessionRow.session_id) = s :=
      by simpa using h
    exact countDistinct_pos (by simpa [List.map_eq_nil_iff] using
      (by simpa [List.isEmpty_iff] using hne : sessionsOn sessions d ≠ []))

-- ============================================================
-- Claim C6 (amended form)
-- ============================================================

/-- C6 amended: every daily-metrics row has a nonnegative conversion rate
equal to `round2(total_orders / total_sessions * 100)` when both counts are
present (with a strictly positive session count, so no division by zero),
and exactly 0 when total_sessions is undefined for that date. -/
theorem c6_conversion_rate_amended (orders : List OrderRow)
    (sessions : List SessionRow) (users : Option (List UserRow)) :
    ∀ row ∈ (create_daily_business_metrics (some orders) (some sessions) users).getD [],
      0 ≤ row.conversion_rate ∧
      (row.total_sessions = none → row.conversion_rate = 0) ∧
      (∀ o s : ℕ, row.total_orders = some o → row.total_sessions = some s →
        0 < s ∧ row.conversion_rate = round2 ((o : ℚ) / (s : ℚ) * 100)) := by
  intro row hrow
  obtain ⟨d, _, rfl⟩ := daily_mem hrow
  refine ⟨?_, ?_, ?_⟩
  · show 0 ≤ dm_conversion_rate orders sessions d
    unfold dm_conversion_rate
    apply round2_nonneg
    rcases dm_total_orders orders d with _ | o <;>
      rcases dm_total_sessions sessions d with _ | s <;> simp <;> positivity
  · intro hnone
    show dm_conversion_rate orders sessions d = 0
    unfold dm_conversion_rate
    rw [show dm_total_sessions sessions d = none from hnone]
    rcases dm_total_orders orders d with _ | o <;> exact round2_zero
  · intro o s ho hs
    refine ⟨dm_total_sessions_pos hs, ?_⟩
    show dm_conversion_rate orders sessions d = _
    unfold dm_conversion_rate
    rw [show dm_total_orders orders d = some o from ho,
      show dm_total_sessions sessions d = some s from hs]

-- ============================================================
-- Claim C7
-- ============================================================

/-- C7: for every calendar date carried by a parseable order timestamp,
the daily-metrics output has exactly one row for that date, its
total_revenue is the 2-decimal rounding of the sum of total_price over
precisely the orders grouped under that date, and an order with an
unparseable timestamp belongs to no date group. -/
theorem c7_daily_revenue_per_date (orders : List OrderRow)
    (sessions : List SessionRow) (users : Option (List UserRow)) (d : ℤ)
    (h : ∃ o ∈ orders, orderDate o = some d) :
    (((create_daily_business_metrics (some orders) (some sessions) users).getD []).filter
      (fun row => row.date == d)).length = 1 ∧
    (∀ row ∈ (create_daily_business_metrics (some orders) (some sessions) users).getD [],
      row.date = d →
      row.total_revenue =
        some (round2 (((ordersOn orders d).map OrderRow.total_price).sum))) ∧
    (∀ o ∈ orders, o.time = none → orderDate o ≠ some d) := by
  obtain ⟨o₀, ho₀, hdate₀⟩ := h
  have hmemdates : d ∈ dailyDates orders sessions := by
    unfold dailyDates
    rw [List.mem_dedup, List.mem_append]
    exact Or.inl (List.mem_filterMap.mpr ⟨o₀, ho₀, hdate₀⟩)
  refine ⟨?_, ?_, ?_⟩
  · simp only [create_daily_business_metrics, Option.getD_some]
    rw [← List.countP_eq_length_filter, List.countP_map]
    have hfun : ((fun row : DailyRow => row.date == d) ∘
        mkDailyRow orders sessions users) = (fun e : ℤ => e == d) := by
      funext e
      simp [mkDailyRow]
    rw [hfun]
    have := List.count_eq_one_of_mem (List.nodup_dedup _) hmemdates
    simpa [List.count] using this
  · intro row hrow hrowdate
    obtain ⟨e, _, rfl⟩ := daily_mem hrow
    have he : e = d := hrowdate
    subst he
    show (dm_total_revenue orders e).map round2 = _
    have hne : ¬(ordersOn orders e).isEmpty = true := by
      have : o₀ ∈ ordersOn orders e :=
        List.mem_filter.mpr ⟨ho₀, by simp [hdate₀]⟩
      rcases hl : ordersOn orders e with _ | _
      · rw [hl] at this; cases this
      · simp [hl]
    unfold dm_total_revenue
    rw [if_neg hne]
    rfl
  · intro o _ htime
    simp [orderDate, htime]

-- ============================================================
-- Concrete daily-metrics example
-- ============================================================

/-- Three distinct sessions on day 0 (users 1, 2, 3). -/
def exSessions3 : List SessionRow :=
  [{ session_id := 1, user_id := 1, time := some 0, utm_source := none,
     utm_medium := none, utm_campaign := none, country := "US",
     device_type := "mobile", platform := "web", landing_page := "/" },
   { session_id := 2, user_id := 2, time := some 0, utm_source := none,
     utm_medium := none, utm_campaign := none, country := "US",
     device_type := "mobile", platform := "web", landing_page := "/" },
   { session_id := 3, user_id := 3, time := some 0, utm_source := none,
     utm_medium := none, utm_campaign := none, country := "US",
     device_type := "mobile", platform := "web", landing_page := "/" }]

/-- The daily-metrics row for day 0 with 3 sessions and 1 order of 50:
conversion rate is round2(1/3*100) = 33.33. -/
def exDailyRow : DailyRow :=
  { date := 0, total_revenue := some 50, total_orders := some 1,
    total_sessions := some 3, total_users := some 3,
    conversion_rate := 3333 / 100, avg_order_value := 50,
    new_customers := none, repeat_customers := none }

/-- Evaluation of the daily-metrics aggregator on the example input. -/
theorem exDaily_eval :
    (create_daily_business_metrics (some [exOrder50]) (some exSessions3) none).getD []
      = [exDailyRow] := by
  have h50 : round2 (50 : ℚ) = 50 := round2_fixed (n := 5000) (by norm_num)
  have hthird : ((1 : ℚ)) / 3 * 100 = 10000 / 300 := by norm_num
  have hcr : round2 ((10000 : ℚ) / 300) = 3333 / 100 := by
    rw [round2_eq_down (n := 3333) (floorEval (by norm_num) (by norm_num))
      (by norm_num)]
    norm_num
  simp [create_daily_business_metrics, dailyDates, mkDailyRow, exOrder50,
    exSessions3, exDailyRow, orderDate, sessionDate, dateOf, dm_total_revenue,
    dm_total_orders, dm_total_sessions, dm_total_users, dm_conversion_rate,
    dm_avg_order_value, ordersOn, sessionsOn, countDistinct, h50, hthird, hcr]
  rw [show ((3 : ℚ)⁻¹ * 100 : ℚ) = 10000 / 300 from by norm_num, hcr]

/-- C6 counterexample: with 3 sessions and 1 order on day 0 the emitted
conversion rate is the rounded 33.33, which differs from
total_orders / total_sessions * 100 = 100/3 — the claim's exact-equality
formula fails because the code rounds the column to 2 decimals. -/
theorem c6_counterexample :
    ((create_daily_business_metrics (some [exOrder50]) (some exSessions3) none).getD []).map
      (fun row => (row.total_orders, row.total_sessions, row.conversion_rate)) =
      [(some 1, some 3, 3333 / 100)] ∧
    (3333 / 100 : ℚ) ≠ ((1 : ℕ) : ℚ) / ((3 : ℕ) : ℚ) * 100 := by
  constructor
  · rw [exDaily_eval]
    simp [exDailyRow]
  · norm_num

/-- C6 witness: the amended conversion-rate property instantiated at the
concrete day-0 row, discharging membership and both presence hypotheses. -/
theorem c6_witness :
    0 < 3 ∧ exDailyRow.conversion_rate =
      round2 (((1 : ℕ) : ℚ) / ((3 : ℕ) : ℚ) * 100) :=
  (c6_conversion_rate_amended [exOrder50] exSessions3 none exDailyRow
    (by rw [exDaily_eval]; exact List.mem_singleton_self _)).2.2 1 3 rfl rfl

/-- C7 witness: the per-date revenue property instantiated at day 0 of the
concrete example, discharging the date-presence hypothesis. -/
theorem c7_witness :
    (((create_daily_business_metrics (some [exOrder50]) (some exSessions3) none).getD []).filter
      (fun row => row.date == 0)).length = 1 :=
  (c7_daily_revenue_per_date [exOrder50] exSessions3 none 0
    ⟨exOrder50, List.mem_singleton_self _, by simp [orderDate, exOrder50, dateOf]⟩).1

-- ============================================================
-- Claim C3 (code bug: inf, not 0, when cart count is zero)
-- ============================================================

/-- Example line item: product Widget purchased once on day 0. -/
def exItem : ItemRow :=
  { event_id := 1, order_id := 1, product_name := "Widget",
    product_price := 10, product_qty := 1, time := some 0 }

/-- C3: evaluating the product-performance aggregator at the failing input —
the cart table is present but holds no row for (day 0, Widget), so
`times_added_to_cart = 0` — yields `cart_to_purchase_rate = +inf`:
`1 / 0 * 100` is numpy `inf`, and `fillna(0)` replaces only NaN, so the
claimed (and spec'd) substitution of 0 never happens. -/
theorem c3_cart_rate_inf_at_failing_input :
    ((create_product_performance_daily (some [exItem]) (some ([] : List CartRow)) none).getD []).map
      (fun row => (row.times_added_to_cart, row.cart_to_purchase_rate)) =
      [(0, PVal.inf)] := by
  simp [create_product_performance_daily, itemKey, itemsWithKey, mkProdRow,
    exItem, dateOf, pdivQ, pmul100, pfillna0, pround2]

-- ============================================================
-- Claim C4
-- ============================================================

/-- C4: when the sessions table or the orders table failed to load, the
pipeline aborts right after the load phase and writes no output file. -/
theorem c4_abort_writes_nothing (today : ℤ) (data : RawData)
    (h : data.sessions = none ∨ data.orders = none) :
    pipeline_main today data = [] := by
  unfold pipeline_main
  rcases h with h | h
  · rw [h]
  · rw [h]
    rcases data.sessions with _ | ss <;> rfl

/-- A run in which every input file failed to load. -/
def exRawNone : RawData :=
  { users := none, sessions := none, orders := none, order_items := none,
    cart := none, pageviews := none, scrolls := none, clicks := none }

/-- C4 witness: the abort property at the concrete all-missing run. -/
theorem c4_witness : pipeline_main 0 exRawNone = [] :=
  c4_abort_writes_nothing 0 exRawNone (Or.inl rfl)

-- ============================================================
-- Claim C9 (corrected: the coupon aggregator mutates shared input)
-- ============================================================

/-- C9 counterexample: after `create_coupon_performance` runs, the shared
orders table differs from its pre-call contents — the call writes the
derived date column and rewrites the null coupon code of `exOrder50` to
`'NO_COUPON'` in place, so the input is not read-only. -/
theorem c9_counterexample :
    coupon_performance_after [exOrder50] ≠ [exOrder50] := by
  simp [coupon_performance_after, couponPrep, exOrder50, dateOf]

/-- C9 amended: the coupon aggregator's in-place mutation of the shared
orders table is exactly this: rows are neither added, dropped, nor
reordered, every original field except `discount_coupon_code` keeps its
value, the derived `date` column is written from the timestamp, and null
coupon codes become the literal `'NO_COUPON'`. -/
theorem c9_coupon_mutation_amended (orders : List OrderRow) :
    List.Forall₂ (fun before after : OrderRow =>
      after.order_id = before.order_id ∧ after.user_id = before.user_id ∧
      after.session_id = before.session_id ∧ after.time = before.time ∧
      after.total_price = before.total_price ∧
      after.discount = before.discount ∧
      after.total_items = before.total_items ∧
      after.total_qty = before.total_qty ∧
      after.date = before.time.map dateOf ∧
      after.discount_coupon_code =
        some (before.discount_coupon_code.getD "NO_COUPON"))
      orders (coupon_performance_after orders) := by
  induction orders with
  | nil => simp [coupon_performance_after]
  | cons o os ih =>
    exact List.Forall₂.cons (by simp [couponPrep])
      (by simpa [coupon_performance_after] using ih)

-- ============================================================
-- Claim C2 (counterexample and witness) and C10 witness
-- ============================================================

/-- C2 counterexample: a user whose total_revenue is exactly 50 gets
monetary score 1, not the 2 the claim's "50 to 200 gives 2" bucket assigns:
the code's pd.cut buckets are left-open right-closed, so 50 falls in the
(0, 50] bucket. -/
theorem c2_counterexample :
    ((create_user_lifetime_metrics (some [exUser]) (some [exOrder50]) 10).getD []).map
      (fun row => (row.total_revenue, row.rfm_monetary_score)) = [(50, 1)] := by
  rw [exLifetime_eval]
  simp [exLifetimeRow]

/-- C2 witness: the amended bucket property instantiated at the concrete
revenue-50 row, discharging the row-membership hypothesis. -/
theorem c2_witness :
    exLifetimeRow.total_revenue =
      round2 (((userOrders [exOrder50] exLifetimeRow.user_id).map
        OrderRow.total_price).sum) ∧
    exLifetimeRow.rfm_monetary_score = rfm_monetary_score exLifetimeRow.total_revenue :=
  (c2_monetary_bucket_amended [exUser] [exOrder50] 10).1 exLifetimeRow
    (by rw [exLifetime_eval]; exact List.mem_singleton_self _)

/-- C10 witness: the score invariants instantiated at the concrete
single-order row, discharging the row-membership hypothesis. -/
theorem c10_witness :
    (1 ≤ exLifetimeRow.rfm_recency_score ∧ exLifetimeRow.rfm_recency_score ≤ 5) ∧
    (1 ≤ exLifetimeRow.rfm_frequency_score ∧ exLifetimeRow.rfm_frequency_score ≤ 5) ∧
    (1 ≤ exLifetimeRow.rfm_monetary_score ∧ exLifetimeRow.rfm_monetary_score ≤ 5) ∧
    exLifetimeRow.rfm_score.length = 3 ∧
    exLifetimeRow.rfm_score.data.all Char.isDigit = true ∧
    exLifetimeRow.rfm_segment ∈ segmentLabels :=
  (c10_rfm_scores_invariant [exUser] [exOrder50] 10).1 exLifetimeRow
    (by rw [exLifetime_eval]; exact List.mem_singleton_self _)
